import Mathlib

/-!
Verification of the F1 race-data consolidation pipeline
(`src/models/*.py`, `src/collectors/*.py`).

Shallow embedding conventions:
* timestamps are instants modeled as `Int` (seconds); the external
  ISO-8601 parser `datetime.fromisoformat` (and `pd.to_datetime`) is an
  abstract parameter `parseIso : String → Option Int`, and
  `datetime.isoformat` is `isoformat : Int → String`;
* raw API records (schemaless JSON dicts) are structures of `Option`
  fields, `none` meaning the key is absent or null;
* a Python function that can raise returns `Except String _`;
* pandas DataFrames are lists of typed rows; `sort_values` is a
  stable insertion sort on the same keys.
-/

namespace F1

/-- Scalar request-parameter values (`year=2023`, `country_name="Brazil"`). -/
inductive PVal where
  | int (i : Int)
  | str (s : String)
  deriving DecidableEq, Repr

/-- Association-list lookup (Python `dict.get`): first matching key. -/
def lookupAL {κ α : Type} [DecidableEq κ] : List (κ × α) → κ → Option α
  | [], _ => none
  | (k, v) :: t, q => if k = q then some v else lookupAL t q

/-- Association-list update (Python `dict[k] = v`): overwrite in place or append. -/
def insertAL {κ α : Type} [DecidableEq κ] : List (κ × α) → κ → α → List (κ × α)
  | [], k, v => [(k, v)]
  | (k0, v0) :: t, k, v => if k0 = k then (k, v) :: t else (k0, v0) :: insertAL t k v

/-- The suffix-stripping first parse attempt of `Position.from_api_data`:
`if '+' in s: s.split('+')[0] elif 'Z' in s: s.replace('Z', '')`
(string operations are modeled on the character list so that proofs can
evaluate them). -/
def stripTz (s : String) : String :=
  if s.data.contains '+' then String.mk (s.data.takeWhile (fun c => c != '+'))
  else if s.data.contains 'Z' then String.mk (s.data.filter (fun c => c != 'Z'))
  else s

/-- `s.replace('Z', '+00:00')`, the fallback normalization used by both
`Position.from_api_data` and `Session.from_api_data`. -/
def replaceZ (s : String) : String :=
  String.mk (s.data.foldr
    (fun c acc => if c = 'Z' then '+' :: '0' :: '0' :: ':' :: '0' :: '0' :: acc else c :: acc)
    [])

/-- Raw `position` record as returned by the data source (or by `Position.to_dict`). -/
structure RawPosition where
  driver_number : Option Int
  position : Option Int
  date : Option String
  meeting_key : Option Int
  session_key : Option Int
  lap_number : Option Int
  deriving DecidableEq, Repr

/-- The `Position` entity (`src/models/position.py`). -/
structure Position where
  driver_number : Option Int
  position : Option Int
  date : Option Int
  meeting_key : Option Int
  session_key : Option Int
  lap_number : Option Int
  deriving DecidableEq, Repr

/-- `Position.from_api_data`: two-stage timestamp parse; an unparsable
date raises (here: `Except.error`). A non-string date value passes through. -/
def Position.from_api_data (parseIso : String → Option Int) (r : RawPosition) :
    Except String Position :=
  match r.date with
  | none =>
      Except.ok ⟨r.driver_number, r.position, none, r.meeting_key, r.session_key, r.lap_number⟩
  | some s =>
      match parseIso (stripTz s) with
      | some d =>
          Except.ok ⟨r.driver_number, r.position, some d, r.meeting_key, r.session_key,
            r.lap_number⟩
      | none =>
          match parseIso (replaceZ s) with
          | some d =>
              Except.ok ⟨r.driver_number, r.position, some d, r.meeting_key, r.session_key,
                r.lap_number⟩
          | none => Except.error ("Invalid isoformat string: " ++ s)

/-- `Position.to_dict`: the date is serialized with `isoformat`, `None` stays `None`. -/
def Position.to_dict (isoformat : Int → String) (p : Position) : RawPosition :=
  ⟨p.driver_number, p.position, p.date.map isoformat, p.meeting_key, p.session_key, p.lap_number⟩

/-- Raw `drivers` record as returned by the data source (or by `Driver.to_dict`). -/
structure RawDriver where
  driver_number : Option Int
  first_name : Option String
  last_name : Option String
  full_name : Option String
  name_acronym : Option String
  broadcast_name : Option String
  team_name : Option String
  team_colour : Option String
  country_code : Option String
  headshot_url : Option String
  meeting_key : Option Int
  session_key : Option Int
  deriving DecidableEq, Repr

/-- The `Driver` entity (`src/models/driver.py`). -/
structure Driver where
  driver_number : Option Int
  first_name : String
  last_name : String
  full_name : String
  name_acronym : String
  broadcast_name : String
  team_name : String
  team_colour : String
  country_code : String
  headshot_url : Option String
  meeting_key : Option Int
  session_key : Option Int
  deriving DecidableEq, Repr

/-- `Driver.from_api_data`: missing string fields default to `""`, optional
fields pass through. Never fails. -/
def Driver.from_api_data (r : RawDriver) : Driver :=
  ⟨r.driver_number, r.first_name.getD "", r.last_name.getD "", r.full_name.getD "",
    r.name_acronym.getD "", r.broadcast_name.getD "", r.team_name.getD "",
    r.team_colour.getD "", r.country_code.getD "", r.headshot_url, r.meeting_key,
    r.session_key⟩

/-- `Driver.to_dict`. -/
def Driver.to_dict (d : Driver) : RawDriver :=
  ⟨d.driver_number, some d.first_name, some d.last_name, some d.full_name,
    some d.name_acronym, some d.broadcast_name, some d.team_name, some d.team_colour,
    some d.country_code, d.headshot_url, d.meeting_key, d.session_key⟩

/-- Raw `sessions` record as returned by the data source (or by `Session.to_dict`). -/
structure RawSession where
  session_key : Option Int
  session_name : Option String
  session_type : Option String
  country_name : Option String
  country_code : Option String
  circuit_short_name : Option String
  location : Option String
  year : Option Int
  meeting_key : Option Int
  date_start : Option String
  date_end : Option String
  gmt_offset : Option String
  circuit_key : Option Int
  country_key : Option Int
  deriving DecidableEq, Repr

/-- The `Session` entity (`src/models/session.py`). -/
structure Session where
  session_key : Option Int
  session_name : String
  session_type : String
  country_name : String
  country_code : String
  circuit_short_name : String
  location : String
  year : Option Int
  meeting_key : Option Int
  date_start : Option Int
  date_end : Option Int
  gmt_offset : Option String
  circuit_key : Option Int
  country_key : Option Int
  deriving DecidableEq, Repr

/-- The nested `parse_date` of `Session.from_api_data`: empty/absent gives
`None`, and a parse failure is swallowed into `None` (the `except ValueError`
branch) rather than raised. -/
def Session.parse_date (parseIso : String → Option Int) (o : Option String) : Option Int :=
  match o with
  | none => none
  | some s => if s = "" then none else parseIso (replaceZ s)

/-- `Session.from_api_data`: missing strings default to `""`; dates go
through `parse_date`. Never fails. -/
def Session.from_api_data (parseIso : String → Option Int) (r : RawSession) : Session :=
  ⟨r.session_key, r.session_name.getD "", r.session_type.getD "", r.country_name.getD "",
    r.country_code.getD "", r.circuit_short_name.getD "", r.location.getD "",
    r.year, r.meeting_key, Session.parse_date parseIso r.date_start,
    Session.parse_date parseIso r.date_end, r.gmt_offset, r.circuit_key, r.country_key⟩

/-- `Session.to_dict`. -/
def Session.to_dict (isoformat : Int → String) (s : Session) : RawSession :=
  ⟨s.session_key, some s.session_name, some s.session_type, some s.country_name,
    some s.country_code, some s.circuit_short_name, some s.location, s.year,
    s.meeting_key, s.date_start.map isoformat, s.date_end.map isoformat,
    s.gmt_offset, s.circuit_key, s.country_key⟩

/-! ## Sorting (model of `DataFrame.sort_values`, stable, NaN/NaT last) -/

/-- Stable insertion of `a`: `a` goes in front of the first strictly
greater element, after all elements it does not strictly precede. -/
def insertByLt {α : Type} (lt : α → α → Bool) (a : α) : List α → List α
  | [] => [a]
  | b :: t => if lt a b then a :: b :: t else b :: insertByLt lt a t

/-- Stable insertion sort by a strict comparator. -/
def sortByLt {α : Type} (lt : α → α → Bool) : List α → List α
  | [] => []
  | a :: t => insertByLt lt a (sortByLt lt t)

/-- Compare optional instants with `none` (NaT) sorted last, as pandas does. -/
def ocmp : Option Int → Option Int → Ordering
  | none, none => Ordering.eq
  | none, some _ => Ordering.gt
  | some _, none => Ordering.lt
  | some a, some b => compare a b

/-! ## BaseCollector: cache and request layer (`src/collectors/base.py`) -/

/-- Cache/counter state of one collector instance. `calls` counts how many
times the data source has actually been consulted (it indexes the abstract
source functions below, letting the source answer differently on later
fetches). -/
structure Collector (α : Type) where
  cache_enabled : Bool
  cache : List ((String × List (String × PVal)) × List α)
  calls : Nat
  deriving DecidableEq, Repr

/-- A fresh collector with the default `cache_enabled=True`. -/
def Collector.init {α : Type} : Collector α := ⟨true, [], 0⟩

/-- Lexicographic code-point comparison of character lists (Python `str <`). -/
def charListLt : List Char → List Char → Bool
  | [], [] => false
  | [], _ :: _ => true
  | _ :: _, [] => false
  | a :: as, b :: bs =>
      if a.toNat < b.toNat then true
      else if b.toNat < a.toNat then false
      else charListLt as bs

/-- Python string comparison, on the character data. -/
def strLtB (a b : String) : Bool := charListLt a.data b.data

/-- Strict order on request parameters used by `sorted(params.items())`:
keys of a kwargs dict are distinct, so only the key is compared. -/
def paramLt (a b : String × PVal) : Bool := strLtB a.1 b.1

/-- `BaseCollector._get_cache_key`: class name plus the parameter pairs
sorted by key. The Python code stringifies this pair
(`f"{cls}:{str(sorted_params)}"`); the pair itself is an injective model
of that string. -/
def _get_cache_key (cls : String) (params : List (String × PVal)) :
    String × List (String × PVal) :=
  (cls, sortByLt paramLt params)

/-- `BaseCollector._get_from_cache`:
`if not self.cache_enabled or not self._cache: return None` — note that an
empty dict is falsy, so an empty cache short-circuits to `None` as well. -/
def Collector.get_from_cache {α : Type} (c : Collector α)
    (key : String × List (String × PVal)) : Option (List α) :=
  if !c.cache_enabled || c.cache.isEmpty then none
  else lookupAL c.cache key

/-- `BaseCollector._save_to_cache`:
`if not self.cache_enabled or not self._cache: return` — the same falsy
test guards the write, so a write into an *empty* cache dict is skipped. -/
def Collector.save_to_cache {α : Type} (c : Collector α)
    (key : String × List (String × PVal)) (data : List α) : Collector α :=
  if !c.cache_enabled || c.cache.isEmpty then c
  else { c with cache := insertAL c.cache key data }

/-- `BaseCollector._make_cached_request`: try the cache, else consult the
data source (advancing the fetch counter) and save a non-`None` result. -/
def Collector.make_cached_request {α : Type} (cls : String)
    (apiFn : Nat → List (String × PVal) → Option (List α))
    (c : Collector α) (endpoint : String) (params : List (String × PVal)) :
    Option (List α) × Collector α :=
  let key := _get_cache_key cls (("endpoint", PVal.str endpoint) :: params)
  match c.get_from_cache key with
  | some d => (some d, c)
  | none =>
      match apiFn c.calls params with
      | some d =>
          let c1 := c.save_to_cache key d
          (some d, { c1 with calls := c1.calls + 1 })
      | none => (none, { c with calls := c.calls + 1 })

/-- The external data source: one fetch function per endpoint, indexed by
how many fetches that collector has already made (so answers may vary over
time, as a live HTTP source's do). -/
structure Api where
  sessions : Nat → List (String × PVal) → Option (List RawSession)
  drivers : Nat → List (String × PVal) → Option (List RawDriver)
  positions : Nat → List (String × PVal) → Option (List RawPosition)

/-- Parameter list `{"session_key": sk}` plus `driver_number` added only if
truthy (`if driver_number:`), which omits it both for `None` and for `0`.
Shared by `DriverCollector.collect` and `PositionCollector.collect`. -/
def collectParams (session_key : Int) (driver_number : Option Int) :
    List (String × PVal) :=
  [("session_key", PVal.int session_key)] ++
    (match driver_number with
     | some n => if n = 0 then [] else [("driver_number", PVal.int n)]
     | none => [])

/-! ## SessionCollector (`src/collectors/session_collector.py`) -/

/-- `SessionCollector._collect_single_session`: empty or `None` data gives
an empty frame; otherwise one `to_dict` row per normalized entity. -/
def SessionCollector.collect_single_session (api : Api)
    (parseIso : String → Option Int) (isoformat : Int → String)
    (c : Collector RawSession) (session_key : Int) :
    List RawSession × Collector RawSession :=
  let (data, c1) := Collector.make_cached_request "SessionCollector" api.sessions c
    "sessions" [("session_key", PVal.int session_key)]
  match data with
  | none => ([], c1)
  | some l =>
      if l.isEmpty then ([], c1)
      else (l.map (fun r => Session.to_dict isoformat (Session.from_api_data parseIso r)), c1)

/-- `SessionCollector._collect_sessions_by_filters` (the `collect` path
taken when no `session_key` is given). -/
def SessionCollector.collect_by_filters (api : Api)
    (parseIso : String → Option Int) (isoformat : Int → String)
    (c : Collector RawSession) (filters : List (String × PVal)) :
    List RawSession × Collector RawSession :=
  let (data, c1) := Collector.make_cached_request "SessionCollector" api.sessions c
    "sessions" filters
  match data with
  | none => ([], c1)
  | some l =>
      if l.isEmpty then ([], c1)
      else (l.map (fun r => Session.to_dict isoformat (Session.from_api_data parseIso r)), c1)

/-- `SessionCollector.get_session_info`: `None` on an empty frame, else the
first row rebuilt into a `Session`. -/
def SessionCollector.get_session_info (api : Api)
    (parseIso : String → Option Int) (isoformat : Int → String)
    (c : Collector RawSession) (session_key : Int) :
    Option Session × Collector RawSession :=
  let (df, c1) := SessionCollector.collect_single_session api parseIso isoformat c session_key
  match df with
  | [] => (none, c1)
  | r0 :: _ => (some (Session.from_api_data parseIso r0), c1)

/-! ## DriverCollector (`src/collectors/driver_collector.py`) -/

/-- `DriverCollector.collect`: empty/`None` data gives an empty frame, else
one `to_dict` row per normalized driver. -/
def DriverCollector.collect (api : Api) (c : Collector RawDriver)
    (session_key : Int) (driver_number : Option Int) :
    List RawDriver × Collector RawDriver :=
  let (data, c1) := Collector.make_cached_request "DriverCollector" api.drivers c
    "drivers" (collectParams session_key driver_number)
  match data with
  | none => ([], c1)
  | some l =>
      if l.isEmpty then ([], c1)
      else (l.map (fun r => Driver.to_dict (Driver.from_api_data r)), c1)

/-- `DriverCollector.get_drivers_dict`: rebuild each frame row into a
`Driver` and key the dict by `driver.driver_number` (later rows overwrite). -/
def DriverCollector.get_drivers_dict (api : Api) (c : Collector RawDriver)
    (session_key : Int) : List (Option Int × Driver) × Collector RawDriver :=
  let (df, c1) := DriverCollector.collect api c session_key none
  (df.foldl (fun acc row =>
      let d := Driver.from_api_data row
      insertAL acc d.driver_number d) [], c1)

/-! ## PositionCollector (`src/collectors/position_collector.py`) -/

/-- The list comprehension `[Position.from_api_data(item) for item in data]`:
each record is normalized in order and the first raised error propagates. -/
def mapOrFail {α β : Type} (f : α → Except String β) : List α → Except String (List β)
  | [] => Except.ok []
  | a :: t =>
      match f a with
      | Except.error e => Except.error e
      | Except.ok b =>
          match mapOrFail f t with
          | Except.error e => Except.error e
          | Except.ok bs => Except.ok (b :: bs)

/-- `df['date'] = pd.to_datetime(df['date'])` applied to one frame row: the
serialized date string is parsed back into an instant (`None` stays NaT). -/
def toDatetimeRow (parseIso : String → Option Int) (isoformat : Int → String)
    (p : Position) : Position :=
  { p with date := (p.date.map isoformat).bind parseIso }

/-- Strict comparator for `sort_values(['date', 'position'])`. -/
def posLt (a b : Position) : Bool :=
  match ocmp a.date b.date with
  | Ordering.lt => true
  | Ordering.gt => false
  | Ordering.eq => ocmp a.position b.position == Ordering.lt

/-- Strict comparator for `sort_values('date')`. -/
def dateLt (a b : Position) : Bool := ocmp a.date b.date == Ordering.lt

/-- `PositionCollector.collect`: normalize every record (an unparsable date
raises), re-parse the serialized date column (`pd.to_datetime`), and sort
by `['date', 'position']`. -/
def PositionCollector.collect (api : Api)
    (parseIso : String → Option Int) (isoformat : Int → String)
    (c : Collector RawPosition) (session_key : Int) (driver_number : Option Int) :
    Except String (List Position) × Collector RawPosition :=
  let (data, c1) := Collector.make_cached_request "PositionCollector" api.positions c
    "position" (collectParams session_key driver_number)
  match data with
  | none => (Except.ok [], c1)
  | some l =>
      if l.isEmpty then (Except.ok [], c1)
      else
        match mapOrFail (Position.from_api_data parseIso) l with
        | Except.error e => (Except.error e, c1)
        | Except.ok positions =>
            let df := positions.map (toDatetimeRow parseIso isoformat)
            (Except.ok (sortByLt posLt df), c1)

/-- One output row of `get_leaders_history`. -/
structure LeaderRow where
  date : Option Int
  driver_number : Option Int
  leader_changed : Bool
  leadership_duration : Option Int
  deriving DecidableEq, Repr

/-- pandas `!=` between possibly-NaN values: any comparison involving NaN
is `True`; between two present values it is ordinary disequality. -/
def neNaN : Option Int → Option Int → Bool
  | some a, some b => a != b
  | _, _ => true

/-- Difference of optional instants (`.dt.total_seconds()` of a timestamp
difference): NaN (`none`) as soon as either side is missing. -/
def optSub : Option Int → Option Int → Option Int
  | some a, some b => some (a - b)
  | _, _ => none

/-- Row-wise body of `get_leaders_history` over the time-sorted P1 frame:
`leader_changed = driver_number != driver_number.shift(1)` (the first row
compares against NaN, hence `True`), and
`leadership_duration = date.shift(-1) - date` (the gap to the *next* P1
row, whatever its driver; the last row gets NaT). -/
def leaders_hist_aux : Option (Option Int) → List Position → List LeaderRow
  | _, [] => []
  | prev, r :: rest =>
      ⟨r.date, r.driver_number,
        (match prev with
         | none => true
         | some q => neNaN r.driver_number q),
        (match rest with
         | [] => none
         | r2 :: _ => optSub r2.date r.date)⟩ :: leaders_hist_aux (some r.driver_number) rest

/-- `PositionCollector.get_leaders_history`: keep `position == 1` rows,
sort by date, then flag leader changes and compute stint durations. -/
def PositionCollector.get_leaders_history (api : Api)
    (parseIso : String → Option Int) (isoformat : Int → String)
    (c : Collector RawPosition) (session_key : Int) :
    Except String (List LeaderRow) × Collector RawPosition :=
  let (dfE, c1) := PositionCollector.collect api parseIso isoformat c session_key none
  match dfE with
  | Except.error e => (Except.error e, c1)
  | Except.ok df =>
      if df.isEmpty then (Except.ok [], c1)
      else
        let leaders := df.filter (fun p => p.position == some 1)
        if leaders.isEmpty then (Except.ok [], c1)
        else (Except.ok (leaders_hist_aux none (sortByLt dateLt leaders)), c1)

/-! ## DriverCollector.get_teams_summary -/

/-- Columns of the frame built by `DriverCollector.collect`, i.e. the keys
of `Driver.to_dict`. There is no `driver_name` column. -/
def driverDfColumns : List String :=
  ["driver_number", "first_name", "last_name", "full_name", "name_acronym",
   "broadcast_name", "team_name", "team_colour", "country_code", "headshot_url",
   "meeting_key", "session_key"]

/-- Columns that `get_teams_summary` aggregates over. -/
def teamsAggColumns : List String :=
  ["driver_number", "driver_name", "name_acronym", "country_code"]

/-- One output row of `get_teams_summary`. -/
structure TeamsRow where
  team_name : Option String
  team_colour : Option String
  driver_count : Nat
  driver_names : String
  driver_acronyms : String
  countries : String
  deriving DecidableEq, Repr

/-- Column access on a driver-frame row, by column name. -/
def rawDriverCol (r : RawDriver) : String → Option String
  | "first_name" => r.first_name
  | "last_name" => r.last_name
  | "full_name" => r.full_name
  | "name_acronym" => r.name_acronym
  | "broadcast_name" => r.broadcast_name
  | "team_name" => r.team_name
  | "team_colour" => r.team_colour
  | "country_code" => r.country_code
  | "headshot_url" => r.headshot_url
  | _ => none

/-- First-occurrence list of distinct elements (`Series.unique`). -/
def distinctKeep : List String → List String
  | [] => []
  | a :: t => if (distinctKeep t).contains a then a :: (distinctKeep t).filter (fun b => b != a)
      else a :: distinctKeep t

/-- The grouped aggregation `get_teams_summary` asks pandas for. Only ever
reached when every column in `teamsAggColumns` exists in the frame — which
is false for `driver_name`, so in this program the branch is dead. -/
def groupTeams (df : List RawDriver) : List TeamsRow :=
  let keys := (df.map (fun r => (r.team_name, r.team_colour))).eraseDups
  keys.map (fun k =>
    let grp := df.filter (fun r => r.team_name == k.1 && r.team_colour == k.2)
    ⟨k.1, k.2, grp.length,
      String.intercalate ", " (grp.map (fun r => (rawDriverCol r "driver_name").getD "")),
      String.intercalate ", " (grp.map (fun r => (rawDriverCol r "name_acronym").getD "")),
      String.intercalate ", " (distinctKeep (grp.map (fun r => (rawDriverCol r "country_code").getD "")))⟩)

/-- `DriverCollector.get_teams_summary`: `groupby(['team_name',
'team_colour']).agg({...})` — pandas raises a `KeyError` if an aggregated
column does not exist in the frame. -/
def DriverCollector.get_teams_summary (api : Api) (c : Collector RawDriver)
    (session_key : Int) : Except String (List TeamsRow) × Collector RawDriver :=
  let (df, c1) := DriverCollector.collect api c session_key none
  if df.isEmpty then (Except.ok [], c1)
  else if teamsAggColumns.all (fun col => driverDfColumns.contains col) then
    (Except.ok (groupTeams df), c1)
  else
    (Except.error "KeyError: column driver_name does not exist", c1)

/-! ## F1DataCollector.collect_race_data (`src/collectors/f1_data_collector.py`) -/

/-- One consolidated record (the keys of `row_data` plus the later
`seconds_from_start` column, absent/`none` until computed). -/
structure ConsRow where
  session_key : Option Int
  session_name : String
  session_type : String
  country_name : String
  circuit_name : String
  year : Option Int
  session_date : Option String
  driver_number : Option Int
  driver_name : String
  driver_acronym : String
  team_name : String
  team_colour : String
  country_code : String
  headshot_url : Option String
  position : Option Int
  timestamp : Option Int
  lap_number : Option Int
  meeting_key : Option Int
  seconds_from_start : Option Int
  deriving DecidableEq, Repr

/-- The `row_data` built for one surviving position observation: session
fields from `session.to_dict()`, driver fields from `driver.to_dict()`,
position fields from the position row. (`dict.get(key, default)` never
falls back to the default here because `to_dict` emits every key.) -/
def buildRow (isoformat : Int → String) (session : Session) (driver : Driver)
    (p : Position) : ConsRow :=
  let sd := Session.to_dict isoformat session
  let dd := Driver.to_dict driver
  ⟨sd.session_key, sd.session_name.getD "", sd.session_type.getD "",
    sd.country_name.getD "", sd.circuit_short_name.getD "", sd.year, sd.date_start,
    dd.driver_number, dd.full_name.getD "", dd.name_acronym.getD "",
    dd.team_name.getD "", dd.team_colour.getD "", dd.country_code.getD "",
    dd.headshot_url, p.position, p.date, p.lap_number, p.meeting_key, none⟩

/-- The consolidation loop: for each position row look up its driver and
keep the merged row; observations with no matching driver are skipped. -/
def consolidate (isoformat : Int → String) (session : Session)
    (dict : List (Option Int × Driver)) (rows : List Position) : List ConsRow :=
  rows.filterMap (fun p =>
    (lookupAL dict p.driver_number).map (fun d => buildRow isoformat session d p))

/-- `df['timestamp'].min()` over the present timestamps. -/
def minTimestamp (rows : List ConsRow) : Option Int :=
  rows.foldl (fun acc r =>
    match acc, r.timestamp with
    | none, t => t
    | some m, none => some m
    | some m, some t => some (min m t)) none

/-- `df['seconds_from_start'] = (df['timestamp'] - session_start).dt.total_seconds()`. -/
def addSecondsFromStart (rows : List ConsRow) : List ConsRow :=
  let tmin := (minTimestamp rows).getD 0
  rows.map (fun r => { r with seconds_from_start := r.timestamp.map (fun t => t - tmin) })

/-- `F1DataCollector._estimate_lap_numbers` (invoked with the default
`avg_lap_time_seconds = 90`): `lap_number = seconds_from_start // avg + 1`,
then `astype(int)`, which raises if any value is NaN. -/
def _estimate_lap_numbers (avg : Int) (rows : List ConsRow) :
    Except String (List ConsRow) :=
  if rows.all (fun r => r.seconds_from_start.isSome) then
    Except.ok (rows.map (fun r =>
      { r with lap_number := some ((r.seconds_from_start.getD 0).fdiv avg + 1) }))
  else Except.error "Cannot convert non-finite values (NA or inf) to integer"

/-- Strict comparator for the final `sort_values(['timestamp', 'position'])`. -/
def consRowLt (a b : ConsRow) : Bool :=
  match ocmp a.timestamp b.timestamp with
  | Ordering.lt => true
  | Ordering.gt => false
  | Ordering.eq => ocmp a.position b.position == Ordering.lt

/-- The post-consolidation processing of `collect_race_data` (`timestamp`
re-parse is the identity here since position dates are already parsed):
compute `seconds_from_start` unless every timestamp is NaT, estimate lap
numbers iff no row carries one, and sort. -/
def processRows (isoformat : Int → String) (session : Session)
    (dict : List (Option Int × Driver)) (rows : List Position) :
    Except String (List ConsRow) :=
  let df := consolidate isoformat session dict rows
  if df.isEmpty then Except.ok df
  else
    let df1 := if df.all (fun r => r.timestamp = none) then df else addSecondsFromStart df
    let dfE :=
      if df.all (fun r => r.timestamp = none) then Except.ok df1
      else if df1.all (fun r => r.lap_number = none) then _estimate_lap_numbers 90 df1
      else Except.ok df1
    match dfE with
    | Except.error e => Except.error e
    | Except.ok df2 => Except.ok (sortByLt consRowLt df2)

/-- Caches of the three specialized collectors owned by `F1DataCollector`. -/
structure F1State where
  sessions : Collector RawSession
  drivers : Collector RawDriver
  positions : Collector RawPosition
  deriving Repr

/-- A fresh `F1DataCollector(cache_enabled=True)`. -/
def initState : F1State := ⟨Collector.init, Collector.init, Collector.init⟩

/-- `F1DataCollector.collect_race_data`: session info, driver dict and
position frame in turn (each an empty-result early exit), then the
consolidation and derivation pipeline. -/
def F1DataCollector.collect_race_data (api : Api)
    (parseIso : String → Option Int) (isoformat : Int → String)
    (st : F1State) (session_key : Int) : Except String (List ConsRow) × F1State :=
  let (sessOpt, cs) := SessionCollector.get_session_info api parseIso isoformat
    st.sessions session_key
  let st1 : F1State := { st with sessions := cs }
  match sessOpt with
  | none => (Except.ok [], st1)
  | some sess =>
      let (dict, cd) := DriverCollector.get_drivers_dict api st1.drivers session_key
      let st2 : F1State := { st1 with drivers := cd }
      if dict.isEmpty then (Except.ok [], st2)
      else
        let (posE, cp) := PositionCollector.collect api parseIso isoformat
          st2.positions session_key none
        let st3 : F1State := { st2 with positions := cp }
        match posE with
        | Except.error e => (Except.error e, st3)
        | Except.ok rows =>
            if rows.isEmpty then (Except.ok [], st3)
            else (processRows isoformat sess dict rows, st3)

/-- The driver dict `get_drivers_dict` builds from a fetched record list
(factored out so theorems can speak about it). -/
def driversDictOf (ds : List RawDriver) : List (Option Int × Driver) :=
  (ds.map (fun r => Driver.to_dict (Driver.from_api_data r))).foldl
    (fun acc row => insertAL acc (Driver.from_api_data row).driver_number
      (Driver.from_api_data row)) []

/-! ## Concrete fixtures used by counterexamples and witnesses

The abstract `parseIso`/`isoformat` parameters are instantiated with a
small integer parser and printer — a stand-in for the external ISO-8601
library, chosen so that every proof can evaluate it. -/

/-- Decimal digit value of a character, if any. -/
def digitVal (c : Char) : Option Nat :=
  if 48 ≤ c.toNat ∧ c.toNat ≤ 57 then some (c.toNat - 48) else none

/-- Accumulating decimal parser. -/
def parseDigitsAux : List Char → Nat → Option Nat
  | [], acc => some acc
  | c :: t, acc =>
      match digitVal c with
      | none => none
      | some d => parseDigitsAux t (acc * 10 + d)

/-- Fixture instant parser (stands in for `datetime.fromisoformat`):
an optionally negated decimal integer, anything else is unparsable. -/
def parseIntFix (s : String) : Option Int :=
  match s.data with
  | [] => none
  | '-' :: t =>
      if t.isEmpty then none
      else (parseDigitsAux t 0).map (fun n => -(n : Int))
  | l => (parseDigitsAux l 0).map (fun n => (n : Int))

/-- The decimal digit character for `n % 10`. -/
def digitChar (n : Nat) : Char :=
  if n = 0 then '0' else if n = 1 then '1' else if n = 2 then '2'
  else if n = 3 then '3' else if n = 4 then '4' else if n = 5 then '5'
  else if n = 6 then '6' else if n = 7 then '7' else if n = 8 then '8' else '9'

/-- Fuelled decimal printer. -/
def natDigitsAux : Nat → Nat → List Char
  | 0, _ => []
  | fuel + 1, n =>
      if n < 10 then [digitChar n]
      else natDigitsAux fuel (n / 10) ++ [digitChar (n % 10)]

/-- Fixture instant printer (stands in for `datetime.isoformat`). -/
def formatIntFix (d : Int) : String :=
  match d with
  | Int.ofNat n => String.mk (natDigitsAux (n + 1) n)
  | Int.negSucc n => String.mk ('-' :: natDigitsAux (n + 2) (n + 1))

/-- A well-formed raw session record for session key 9. -/
def rawS : RawSession :=
  ⟨some 9, some "Race", some "Race", some "Brazil", some "BR", some "Interlagos",
    some "Sao Paulo", some 2023, some 1111, none, none, some "-03:00", some 14, some 10⟩

/-- A raw session record whose `date_start` is unparsable. -/
def rawSBad : RawSession :=
  ⟨some 9, some "Race", some "Race", some "Brazil", some "BR", some "Interlagos",
    some "Sao Paulo", some 2023, some 1111, some "garbage", none, none, some 14, some 10⟩

/-- Raw driver record, car number 1. -/
def rawD1 : RawDriver :=
  ⟨some 1, some "Max", some "V", some "Max V", some "VER", some "M V", some "RB",
    some "3671C6", some "NED", none, some 1111, some 9⟩

/-- Raw driver record, car number 2. -/
def rawD2 : RawDriver :=
  ⟨some 2, some "Lew", some "H", some "Lew H", some "HAM", some "L H", some "Merc",
    some "00D2BE", some "GBR", none, some 1111, some 9⟩

/-- Raw position record for session 9, meeting 1111. -/
def mkRawPos (dn : Option Int) (pos : Option Int) (date : Option String)
    (lap : Option Int) : RawPosition :=
  ⟨dn, pos, date, some 1111, some 9, lap⟩

/-- Source where the only position observation is for car 44, which is not
among the session's drivers (an orphaned observation). -/
def apiC1 : Api :=
  ⟨fun _ _ => some [rawS], fun _ _ => some [rawD1],
    fun _ _ => some [mkRawPos (some 44) (some 1) (some "0") none]⟩

/-- Source where the only observation carrying a lap number belongs to the
orphaned car 44, while car 1's observation has no lap number. -/
def apiC2 : Api :=
  ⟨fun _ _ => some [rawS], fun _ _ => some [rawD1],
    fun _ _ => some [mkRawPos (some 44) (some 2) (some "0") (some 5),
                     mkRawPos (some 1) (some 1) (some "0") none]⟩

/-- Source whose position answer grows between the first fetch and any
later fetch (a live source receiving new telemetry between two calls). -/
def apiC3 : Api :=
  ⟨fun _ _ => some [rawS], fun _ _ => some [rawD1],
    fun n _ =>
      if n = 0 then some [mkRawPos (some 1) (some 1) (some "0") (some 1)]
      else some [mkRawPos (some 1) (some 1) (some "0") (some 1),
                 mkRawPos (some 1) (some 2) (some "90") (some 2)]⟩

/-- Constant sessions endpoint for the cache-key experiment. -/
def apiSessionsConst : Nat → List (String × PVal) → Option (List RawSession) :=
  fun _ _ => some [rawS]

/-- `{year: 2023, country_name: "Brazil"}` in one argument order... -/
def paramsA : List (String × PVal) :=
  [("year", PVal.int 2023), ("country_name", PVal.str "Brazil")]

/-- ...and the same parameters in the other order. -/
def paramsB : List (String × PVal) :=
  [("country_name", PVal.str "Brazil"), ("year", PVal.int 2023)]

/-- P1 observations `[car1@0, car1@10, car2@20, car2@30]` for session 9. -/
def apiC5 : Api :=
  ⟨fun _ _ => some [rawS], fun _ _ => some [rawD1, rawD2],
    fun _ _ => some [mkRawPos (some 1) (some 1) (some "0") none,
                     mkRawPos (some 1) (some 1) (some "10") none,
                     mkRawPos (some 2) (some 1) (some "20") none,
                     mkRawPos (some 2) (some 1) (some "30") none]⟩

/-- A raw position record with an unparsable date. -/
def rawPosBad : RawPosition := mkRawPos (some 1) (some 1) (some "garbage") none

/-- Source that answers `None` (fetch failure / no data) on every endpoint. -/
def apiNone : Api := ⟨fun _ _ => none, fun _ _ => none, fun _ _ => none⟩

/-- Source that answers the empty record list on every endpoint. -/
def apiEmptyLists : Api := ⟨fun _ _ => some [], fun _ _ => some [], fun _ _ => some []⟩

/-- Source with a session but no drivers. -/
def apiDrvEmpty : Api := ⟨fun _ _ => some [rawS], fun _ _ => some [], fun _ _ => none⟩

/-- A raw session record with a parsable `date_start`. -/
def rawS2 : RawSession :=
  ⟨some 9, some "Race", some "Race", some "Brazil", some "BR", some "Interlagos",
    some "Sao Paulo", some 2023, some 1111, some "7", none, some "-03:00", some 14, some 10⟩

/-- Source with a session and a driver but an empty position list. -/
def apiPosEmpty : Api := ⟨fun _ _ => some [rawS], fun _ _ => some [rawD1], fun _ _ => some []⟩

/-- First `collect_race_data` call against the changing source. -/
def resC3a : Except String (List ConsRow) × F1State :=
  F1DataCollector.collect_race_data apiC3 parseIntFix formatIntFix initState 9

/-- Second `collect_race_data` call, on the state the first call left. -/
def resC3b : Except String (List ConsRow) × F1State :=
  F1DataCollector.collect_race_data apiC3 parseIntFix formatIntFix resC3a.2 9

/-- The consolidated row both calls agree on (car 1 at instant 0). -/
def rowC3a : ConsRow :=
  ⟨some 9, "Race", "Race", "Brazil", "Interlagos", some 2023, none, some 1, "Max V",
    "VER", "RB", "3671C6", "NED", none, some 1, some 0, some 1, some 1111, some 0⟩

/-- The extra consolidated row only the second call sees (car 1 at instant 90). -/
def rowC3b : ConsRow :=
  ⟨some 9, "Race", "Race", "Brazil", "Interlagos", some 2023, none, some 1, "Max V",
    "VER", "RB", "3671C6", "NED", none, some 2, some 90, some 2, some 1111, some 90⟩

end F1

namespace F1

/-- C10: at the public `collect` of the driver and position collectors,
`driver_number=0` is falsy, so the filter is omitted exactly as when no
`driver_number` is passed: both calls are identical. -/
theorem C10_driver_number_zero_is_unfiltered (api : Api)
    (parseIso : String → Option Int) (isoformat : Int → String)
    (cD : Collector RawDriver) (cP : Collector RawPosition) (sk : Int) :
    DriverCollector.collect api cD sk (some 0) = DriverCollector.collect api cD sk none ∧
    PositionCollector.collect api parseIso isoformat cP sk (some 0) =
      PositionCollector.collect api parseIso isoformat cP sk none := by
  constructor <;> rfl

/-- C6 counterexample: a session record whose `date_start` fails both parse
attempts does NOT raise — `Session.from_api_data` returns a normal entity
with `date_start = None`, refuting "raises for every entity kind whose
record carries a timestamp". -/
theorem C6_counterexample :
    parseIntFix (stripTz "garbage") = none ∧
    parseIntFix (replaceZ "garbage") = none ∧
    Session.from_api_data parseIntFix rawSBad =
      ⟨some 9, "Race", "Race", "Brazil", "BR", "Interlagos", "Sao Paulo",
        some 2023, some 1111, none, none, none, some 14, some 10⟩ :=
  ⟨rfl, rfl, rfl⟩

/-- C6 amended: when both parse attempts fail, `Position.from_api_data`
raises a parsing error naming the offending value, while
`Session.from_api_data` substitutes `None` for the unparsable timestamp
instead of raising. -/
theorem C6_amended_failure_policy (parseIso : String → Option Int)
    (rp : RawPosition) (s : String) (h1 : rp.date = some s)
    (h2 : parseIso (stripTz s) = none) (h3 : parseIso (replaceZ s) = none) :
    Position.from_api_data parseIso rp = Except.error ("Invalid isoformat string: " ++ s) ∧
    ∀ (rs : RawSession) (t : String), rs.date_start = some t →
      parseIso (replaceZ t) = none →
      (Session.from_api_data parseIso rs).date_start = none := by
  constructor
  · simp [Position.from_api_data, h1, h2, h3]
  · intro rs t ht hp
    show Session.parse_date parseIso rs.date_start = none
    rw [ht]
    show (if t = "" then none else parseIso (replaceZ t)) = none
    by_cases he : t = ""
    · simp [he]
    · simp [he, hp]

/-- C6 amended, witness at the concrete unparsable records. -/
theorem C6_amended_failure_policy_witness :
    Position.from_api_data parseIntFix rawPosBad =
      Except.error ("Invalid isoformat string: " ++ "garbage") ∧
    (Session.from_api_data parseIntFix rawSBad).date_start = none := by
  have h := C6_amended_failure_policy parseIntFix rawPosBad "garbage" rfl
    (by decide) (by decide)
  exact ⟨h.1, h.2 rawSBad "garbage" rfl (by decide)⟩

/-- C4: cache keys for the two parameter orders of
`{year: 2023, country_name: "Brazil"}` are equal (sorting works), but the
second identical request does not hit any cache entry: `_save_to_cache`
early-returns on the falsy empty dict, so after the first request the
cache is still empty and the second request consults the source again
(the fetch counter reaches 2). -/
theorem C4_equal_keys_but_no_cache_hit :
    _get_cache_key "SessionCollector" (("endpoint", PVal.str "sessions") :: paramsA) =
      _get_cache_key "SessionCollector" (("endpoint", PVal.str "sessions") :: paramsB) ∧
    (Collector.make_cached_request "SessionCollector" apiSessionsConst Collector.init
        "sessions" paramsA).2.cache = [] ∧
    (Collector.make_cached_request "SessionCollector" apiSessionsConst
        (Collector.make_cached_request "SessionCollector" apiSessionsConst Collector.init
          "sessions" paramsA).2 "sessions" paramsB).2.calls = 2 := by
  refine ⟨by decide, rfl, rfl⟩

/-- C3: `collect_race_data` is not idempotent because the caches never
warm up — `_save_to_cache` refuses to write into a falsy (empty) dict, so
after a full first call every collector cache is still empty and the
second call re-fetches; against a source whose position data grew in
between, the two calls return different consolidated sets. -/
theorem C3_cache_never_warms_and_output_differs :
    resC3a.2.sessions.cache = [] ∧
    resC3a.2.drivers.cache = [] ∧
    resC3a.2.positions.cache = [] ∧
    resC3a.1 = Except.ok [rowC3a] ∧
    resC3b.1 = Except.ok [rowC3a, rowC3b] ∧
    ([rowC3a] : List ConsRow) ≠ [rowC3a, rowC3b] := by
  refine ⟨rfl, rfl, rfl, rfl, rfl, by decide⟩

/-- C9: for any session whose driver fetch returns at least one record,
`get_teams_summary` raises — it aggregates a `driver_name` column, but the
collected driver frame's columns come from `Driver.to_dict`, which has
`full_name` and no `driver_name`, so pandas raises a `KeyError`. -/
theorem C9_teams_summary_raises (api : Api) (c : Collector RawDriver) (sk : Int)
    (d : RawDriver) (ds : List RawDriver) (hc : c.cache = [])
    (h : api.drivers c.calls (collectParams sk none) = some (d :: ds)) :
    (DriverCollector.get_teams_summary api c sk).1 =
      Except.error "KeyError: column driver_name does not exist" := by
  unfold DriverCollector.get_teams_summary DriverCollector.collect
    Collector.make_cached_request Collector.get_from_cache Collector.save_to_cache
  simp [hc, h]
  rw [if_neg (by decide : ¬ ∀ x ∈ teamsAggColumns, x ∈ driverDfColumns)]

/-- C9 witness: the failing input evaluated — one fetched driver record is
enough to make `get_teams_summary` raise. -/
theorem C9_teams_summary_raises_witness :
    (DriverCollector.get_teams_summary apiC1 Collector.init 9).1 =
      Except.error "KeyError: column driver_name does not exist" :=
  C9_teams_summary_raises apiC1 Collector.init 9 rawD1 [] rfl rfl

/-- Adjacent rows of the leaders-history body: the later row's flag
compares its driver against the earlier row's driver, and the earlier
row's duration is the date gap to the later row. -/
theorem leaders_hist_aux_adjacent : ∀ (l : List Position) (prev : Option (Option Int))
    (i : Nat) (ri rj : LeaderRow),
    (leaders_hist_aux prev l).get? i = some ri →
    (leaders_hist_aux prev l).get? (i + 1) = some rj →
    rj.leader_changed = neNaN rj.driver_number ri.driver_number ∧
    ri.leadership_duration = optSub rj.date ri.date := by
  intro l
  induction l with
  | nil =>
      intro prev i ri rj h1 h2
      simp [leaders_hist_aux] at h1
  | cons r rest ih =>
      intro prev i ri rj h1 h2
      cases i with
      | zero =>
          cases rest with
          | nil => simp [leaders_hist_aux] at h2
          | cons r2 rest2 =>
              simp only [leaders_hist_aux, List.get?_cons_zero, List.get?_cons_succ,
                Option.some.injEq] at h1 h2
              subst h1
              subst h2
              exact ⟨rfl, rfl⟩
      | succ n =>
          refine ih (some r.driver_number) n ri rj ?_ ?_
          · simpa [leaders_hist_aux] using h1
          · simpa [leaders_hist_aux] using h2

/-- The first leaders-history row is always flagged as a change (its
`shift(1)` neighbour is NaN and NaN-compare yields `True`). -/
theorem leaders_hist_aux_head (l : List Position) (r0 : LeaderRow)
    (h : (leaders_hist_aux none l).head? = some r0) : r0.leader_changed = true := by
  cases l with
  | nil => simp [leaders_hist_aux] at h
  | cons r rest =>
      simp only [leaders_hist_aux, List.head?_cons, Option.some.injEq] at h
      subst h
      rfl

/-- The last leaders-history row always has a NaT duration. -/
theorem leaders_hist_aux_last : ∀ (l : List Position) (prev : Option (Option Int))
    (r : LeaderRow), (leaders_hist_aux prev l).getLast? = some r →
    r.leadership_duration = none := by
  intro l
  induction l with
  | nil =>
      intro prev r h
      simp [leaders_hist_aux] at h
  | cons a rest ih =>
      intro prev r h
      cases rest with
      | nil =>
          simp only [leaders_hist_aux, List.getLast?_singleton, Option.some.injEq] at h
          subst h
          rfl
      | cons b rest2 =>
          exact ih (some a.driver_number) r (by simpa [leaders_hist_aux,
            List.getLast?_cons_cons] using h)

/-- NaN-aware disequality agrees with ordinary disequality when both
sides are present. -/
theorem neNaN_eq_ne (a b : Option Int) (ha : a.isSome = true) (hb : b.isSome = true) :
    (neNaN a b = true) ↔ a ≠ b := by
  cases a with
  | none => simp at ha
  | some x =>
      cases b with
      | none => simp at hb
      | some y => simp [neNaN]

/-- C5 counterexample: P1 observations `[car1@0, car1@10, car2@20, car2@30]`
give flags `[true, false, true, false]` — the FIRST row is flagged (claim
says `false` there) — and every non-final duration is the gap to the very
next P1 row (10), not the gap to the next flagged change (which would be
20 for the row at time 0); the last duration is null. -/
theorem C5_counterexample :
    (PositionCollector.get_leaders_history apiC5 parseIntFix formatIntFix
        Collector.init 9).1 =
      Except.ok [⟨some 0, some 1, true, some 10⟩, ⟨some 10, some 1, false, some 10⟩,
        ⟨some 20, some 2, true, some 10⟩, ⟨some 30, some 2, false, none⟩] := rfl

/-- C5 amended: over the time-sorted P1 rows, the first row's
`leader_changed` is `true` (pandas compares it against a shifted-in NaN);
every later row's flag is true exactly when its driver differs from the
immediately preceding P1 row; each row's `leadership_duration` is the next
P1 row's time minus its own time — regardless of whether that next row is
a change — and the last row's duration is null. -/
theorem C5_amended_leaders_history (api : Api) (parseIso : String → Option Int)
    (isoformat : Int → String) (c : Collector RawPosition) (sk : Int)
    (out : List LeaderRow) (c' : Collector RawPosition)
    (h : PositionCollector.get_leaders_history api parseIso isoformat c sk =
      (Except.ok out, c'))
    (hdn : ∀ r ∈ out, r.driver_number.isSome = true) :
    (∀ r0, out.head? = some r0 → r0.leader_changed = true) ∧
    (∀ i ri rj, out.get? i = some ri → out.get? (i + 1) = some rj →
      ((rj.leader_changed = true) ↔ rj.driver_number ≠ ri.driver_number) ∧
      ri.leadership_duration = optSub rj.date ri.date) ∧
    (∀ r, out.getLast? = some r → r.leadership_duration = none) := by
  unfold PositionCollector.get_leaders_history at h
  rcases hcol : PositionCollector.collect api parseIso isoformat c sk none with ⟨dfE, c1⟩
  rw [hcol] at h
  cases dfE with
  | error e => simp at h
  | ok df =>
      by_cases hdf : df.isEmpty
      · simp only [hdf, if_true, Prod.mk.injEq, Except.ok.injEq] at h
        obtain ⟨rfl, -⟩ := h
        refine ⟨?_, ?_, ?_⟩ <;> intro ri <;> simp
      · simp only [hdf, if_false] at h
        by_cases hl : (df.filter (fun p => p.position == some 1)).isEmpty
        · simp only [hl, if_true, Prod.mk.injEq, Except.ok.injEq] at h
          obtain ⟨rfl, -⟩ := h
          refine ⟨?_, ?_, ?_⟩ <;> intro ri <;> simp
        · simp only [hl, if_false, Prod.mk.injEq, Except.ok.injEq] at h
          obtain ⟨rfl, -⟩ := h
          refine ⟨?_, ?_, ?_⟩
          · intro r0 hr0
            exact leaders_hist_aux_head _ r0 hr0
          · intro i ri rj h1 h2
            have hadj := leaders_hist_aux_adjacent _ none i ri rj h1 h2
            have hi : ri.driver_number.isSome = true :=
              hdn ri (List.get?_mem h1)
            have hj : rj.driver_number.isSome = true :=
              hdn rj (List.get?_mem h2)
            refine ⟨?_, hadj.2⟩
            rw [hadj.1]
            exact neNaN_eq_ne _ _ hj hi
          · intro r hr
            exact leaders_hist_aux_last _ none r hr

/-- C5 amended, witness: the concrete P1 sequence instantiated through the
theorem — the head row is flagged and the last row's duration is null. -/
theorem C5_amended_leaders_history_witness :
    (⟨some 0, some 1, true, some 10⟩ : LeaderRow).leader_changed = true ∧
    (⟨some 30, some 2, false, none⟩ : LeaderRow).leadership_duration = none := by
  have H := C5_amended_leaders_history apiC5 parseIntFix formatIntFix Collector.init 9
    [⟨some 0, some 1, true, some 10⟩, ⟨some 10, some 1, false, some 10⟩,
     ⟨some 20, some 2, true, some 10⟩, ⟨some 30, some 2, false, none⟩]
    ⟨true, [], 1⟩ rfl (by decide)
  exact ⟨H.1 _ rfl, H.2.2 _ rfl⟩

/-- On an empty cache, `_make_cached_request` always consults the source
and leaves the cache empty (the save guard skips the write). -/
theorem mcr_empty_cache {α : Type} (cls : String)
    (apiFn : Nat → List (String × PVal) → Option (List α)) (c : Collector α)
    (ep : String) (params : List (String × PVal)) (hc : c.cache = []) :
    Collector.make_cached_request cls apiFn c ep params =
      (apiFn c.calls params, { c with calls := c.calls + 1 }) := by
  unfold Collector.make_cached_request Collector.get_from_cache Collector.save_to_cache
  cases happ : apiFn c.calls params <;> simp [hc, happ]

/-- `get_session_info` when the source yields no session. -/
theorem session_info_of_fetch_empty (api : Api) (parseIso : String → Option Int)
    (isoformat : Int → String) (c : Collector RawSession) (sk : Int)
    (hc : c.cache = [])
    (h : api.sessions c.calls [("session_key", PVal.int sk)] = none ∨
      api.sessions c.calls [("session_key", PVal.int sk)] = some []) :
    SessionCollector.get_session_info api parseIso isoformat c sk =
      (none, { c with calls := c.calls + 1 }) := by
  unfold SessionCollector.get_session_info SessionCollector.collect_single_session
  rw [mcr_empty_cache _ _ _ _ _ hc]
  rcases h with h | h <;> (rw [h]; try rfl)

/-- `get_session_info` when the source yields at least one session record. -/
theorem session_info_of_fetch_cons (api : Api) (parseIso : String → Option Int)
    (isoformat : Int → String) (c : Collector RawSession) (sk : Int)
    (s0 : RawSession) (srest : List RawSession) (hc : c.cache = [])
    (h : api.sessions c.calls [("session_key", PVal.int sk)] = some (s0 :: srest)) :
    SessionCollector.get_session_info api parseIso isoformat c sk =
      (some (Session.from_api_data parseIso
        (Session.to_dict isoformat (Session.from_api_data parseIso s0))),
       { c with calls := c.calls + 1 }) := by
  unfold SessionCollector.get_session_info SessionCollector.collect_single_session
  rw [mcr_empty_cache _ _ _ _ _ hc, h]
  rfl

/-- `get_drivers_dict` when the source yields a (possibly empty) record
list: the dict is `driversDictOf` of the fetched records. -/
theorem drivers_dict_of_fetch (api : Api) (c : Collector RawDriver) (sk : Int)
    (ds : List RawDriver) (hc : c.cache = [])
    (h : api.drivers c.calls (collectParams sk none) = some ds) :
    DriverCollector.get_drivers_dict api c sk =
      (driversDictOf ds, { c with calls := c.calls + 1 }) := by
  unfold DriverCollector.get_drivers_dict DriverCollector.collect
  rw [mcr_empty_cache _ _ _ _ _ hc, h]
  cases ds <;> rfl

/-- `get_drivers_dict` when the source yields `None`. -/
theorem drivers_dict_of_fetch_none (api : Api) (c : Collector RawDriver) (sk : Int)
    (hc : c.cache = [])
    (h : api.drivers c.calls (collectParams sk none) = none) :
    DriverCollector.get_drivers_dict api c sk = ([], { c with calls := c.calls + 1 }) := by
  unfold DriverCollector.get_drivers_dict DriverCollector.collect
  rw [mcr_empty_cache _ _ _ _ _ hc, h]
  rfl

/-- `PositionCollector.collect` when the source yields no data. -/
theorem positions_collect_of_fetch_empty (api : Api) (parseIso : String → Option Int)
    (isoformat : Int → String) (c : Collector RawPosition) (sk : Int)
    (dn : Option Int) (hc : c.cache = [])
    (h : api.positions c.calls (collectParams sk dn) = none ∨
      api.positions c.calls (collectParams sk dn) = some []) :
    PositionCollector.collect api parseIso isoformat c sk dn =
      (Except.ok [], { c with calls := c.calls + 1 }) := by
  unfold PositionCollector.collect
  rw [mcr_empty_cache _ _ _ _ _ hc]
  rcases h with h | h <;> (rw [h]; try rfl)

/-- `PositionCollector.collect` when the source yields records that all
normalize successfully. -/
theorem positions_collect_of_fetch (api : Api) (parseIso : String → Option Int)
    (isoformat : Int → String) (c : Collector RawPosition) (sk : Int)
    (dn : Option Int) (ps : List RawPosition) (qs : List Position) (p0 : RawPosition)
    (prest : List RawPosition) (hc : c.cache = []) (hps : ps = p0 :: prest)
    (h : api.positions c.calls (collectParams sk dn) = some ps)
    (hparse : mapOrFail (Position.from_api_data parseIso) ps = Except.ok qs) :
    PositionCollector.collect api parseIso isoformat c sk dn =
      (Except.ok (sortByLt posLt (qs.map (toDatetimeRow parseIso isoformat))),
       { c with calls := c.calls + 1 }) := by
  unfold PositionCollector.collect
  rw [mcr_empty_cache _ _ _ _ _ hc, h, hps]
  have : (p0 :: prest).isEmpty = false := rfl
  rw [hps] at hparse
  simp only [this, Bool.false_eq_true, if_false, hparse]

/-- C7: an empty or `None` source response is "no results", never an
error: each collector returns an empty set, and `collect_race_data`
returns an empty consolidated set when the session is absent, the driver
set is empty, or the position set is empty. -/
theorem C7_empty_results_propagate (api : Api) (parseIso : String → Option Int)
    (isoformat : Int → String) (sk : Int) :
    (∀ (c : Collector RawPosition) (dn : Option Int), c.cache = [] →
      (api.positions c.calls (collectParams sk dn) = none ∨
       api.positions c.calls (collectParams sk dn) = some []) →
      (PositionCollector.collect api parseIso isoformat c sk dn).1 = Except.ok []) ∧
    (∀ (c : Collector RawDriver) (dn : Option Int), c.cache = [] →
      (api.drivers c.calls (collectParams sk dn) = none ∨
       api.drivers c.calls (collectParams sk dn) = some []) →
      (DriverCollector.collect api c sk dn).1 = []) ∧
    (∀ (c : Collector RawSession) (filters : List (String × PVal)), c.cache = [] →
      (api.sessions c.calls filters = none ∨ api.sessions c.calls filters = some []) →
      (SessionCollector.collect_by_filters api parseIso isoformat c filters).1 = []) ∧
    (∀ st : F1State, st.sessions.cache = [] →
      (api.sessions st.sessions.calls [("session_key", PVal.int sk)] = none ∨
       api.sessions st.sessions.calls [("session_key", PVal.int sk)] = some []) →
      (F1DataCollector.collect_race_data api parseIso isoformat st sk).1 = Except.ok []) ∧
    (∀ (st : F1State) (s0 : RawSession) (srest : List RawSession),
      st.sessions.cache = [] → st.drivers.cache = [] →
      api.sessions st.sessions.calls [("session_key", PVal.int sk)] = some (s0 :: srest) →
      (api.drivers st.drivers.calls (collectParams sk none) = none ∨
       api.drivers st.drivers.calls (collectParams sk none) = some []) →
      (F1DataCollector.collect_race_data api parseIso isoformat st sk).1 = Except.ok []) ∧
    (∀ (st : F1State) (s0 : RawSession) (srest : List RawSession) (ds : List RawDriver),
      st.sessions.cache = [] → st.drivers.cache = [] → st.positions.cache = [] →
      api.sessions st.sessions.calls [("session_key", PVal.int sk)] = some (s0 :: srest) →
      api.drivers st.drivers.calls (collectParams sk none) = some ds →
      driversDictOf ds ≠ [] →
      (api.positions st.positions.calls (collectParams sk none) = none ∨
       api.positions st.positions.calls (collectParams sk none) = some []) →
      (F1DataCollector.collect_race_data api parseIso isoformat st sk).1 = Except.ok []) := by
  refine ⟨?_, ?_, ?_, ?_, ?_, ?_⟩
  · intro c dn hc h
    rw [positions_collect_of_fetch_empty api parseIso isoformat c sk dn hc h]
  · intro c dn hc h
    unfold DriverCollector.collect
    rw [mcr_empty_cache _ _ _ _ _ hc]
    rcases h with h | h <;> (rw [h]; try rfl)
  · intro c filters hc h
    unfold SessionCollector.collect_by_filters
    rw [mcr_empty_cache _ _ _ _ _ hc]
    rcases h with h | h <;> (rw [h]; try rfl)
  · intro st hc h
    unfold F1DataCollector.collect_race_data
    rw [session_info_of_fetch_empty api parseIso isoformat st.sessions sk hc h]
  · intro st s0 srest hcs hcd hs hd
    unfold F1DataCollector.collect_race_data
    rw [session_info_of_fetch_cons api parseIso isoformat st.sessions sk s0 srest hcs hs]
    dsimp only
    have hdict : DriverCollector.get_drivers_dict api st.drivers sk =
        ([], { st.drivers with calls := st.drivers.calls + 1 }) := by
      rcases hd with hd | hd
      · exact drivers_dict_of_fetch_none api st.drivers sk hcd hd
      · exact drivers_dict_of_fetch api st.drivers sk [] hcd hd
    rw [hdict]
    rfl
  · intro st s0 srest ds hcs hcd hcp hs hd hdict hp
    unfold F1DataCollector.collect_race_data
    rw [session_info_of_fetch_cons api parseIso isoformat st.sessions sk s0 srest hcs hs]
    dsimp only
    rw [drivers_dict_of_fetch api st.drivers sk ds hcd hd]
    have hne : (driversDictOf ds).isEmpty = false := by
      cases hdd : driversDictOf ds
      · exact absurd hdd hdict
      · rfl
    dsimp only
    rw [hne]
    rw [positions_collect_of_fetch_empty api parseIso isoformat st.positions sk none hcp hp]
    rfl

/-- C7 witness: each empty-data scenario instantiated through the theorem
on fresh collectors — all layers answer with empty sets, no error. -/
theorem C7_empty_results_propagate_witness :
    (PositionCollector.collect apiNone parseIntFix formatIntFix Collector.init 9 none).1 =
      Except.ok [] ∧
    (DriverCollector.collect apiEmptyLists Collector.init 9 none).1 = [] ∧
    (SessionCollector.collect_by_filters apiNone parseIntFix formatIntFix
      Collector.init paramsA).1 = [] ∧
    (F1DataCollector.collect_race_data apiNone parseIntFix formatIntFix initState 9).1 =
      Except.ok [] ∧
    (F1DataCollector.collect_race_data apiDrvEmpty parseIntFix formatIntFix initState 9).1 =
      Except.ok [] ∧
    (F1DataCollector.collect_race_data apiPosEmpty parseIntFix formatIntFix initState 9).1 =
      Except.ok [] := by
  refine ⟨?_, ?_, ?_, ?_, ?_, ?_⟩
  · exact (C7_empty_results_propagate apiNone parseIntFix formatIntFix 9).1
      Collector.init none rfl (Or.inl rfl)
  · exact (C7_empty_results_propagate apiEmptyLists parseIntFix formatIntFix 9).2.1
      Collector.init none rfl (Or.inr rfl)
  · exact (C7_empty_results_propagate apiNone parseIntFix formatIntFix 9).2.2.1
      Collector.init paramsA rfl (Or.inl rfl)
  · exact (C7_empty_results_propagate apiNone parseIntFix formatIntFix 9).2.2.2.1
      initState rfl (Or.inl rfl)
  · exact (C7_empty_results_propagate apiDrvEmpty parseIntFix formatIntFix 9).2.2.2.2.1
      initState rawS [] rfl rfl rfl (Or.inr rfl)
  · exact (C7_empty_results_propagate apiPosEmpty parseIntFix formatIntFix 9).2.2.2.2.2
      initState rawS [] [rawD1] rfl rfl rfl rfl rfl (by decide) (Or.inr rfl)

/-- Serializing a `Position` entity and re-normalizing recovers it, as
long as the printer/parser pair inverts on the entity's instant. -/
theorem position_to_dict_round (parseIso : String → Option Int)
    (isoformat : Int → String) (p : Position)
    (hpd : ∀ d : Int, p.date = some d → parseIso (stripTz (isoformat d)) = some d) :
    Position.from_api_data parseIso (Position.to_dict isoformat p) = Except.ok p := by
  obtain ⟨dn, pos, dt, mk, sk, lap⟩ := p
  cases dt with
  | none => rfl
  | some d =>
      have h := hpd d rfl
      simp only [Position.to_dict, Position.from_api_data, Option.map_some']
      rw [h]

/-- Serializing a `Session` entity and re-normalizing recovers it, as
long as the printer/parser pair inverts on the entity's instants. -/
theorem session_to_dict_round (parseIso : String → Option Int)
    (isoformat : Int → String) (s : Session)
    (h1 : ∀ d : Int, s.date_start = some d →
      isoformat d ≠ "" ∧ parseIso (replaceZ (isoformat d)) = some d)
    (h2 : ∀ d : Int, s.date_end = some d →
      isoformat d ≠ "" ∧ parseIso (replaceZ (isoformat d)) = some d) :
    Session.from_api_data parseIso (Session.to_dict isoformat s) = s := by
  obtain ⟨k, n, t, cn, cc, csn, loc, y, mk, dst, den, g, ck, cky⟩ := s
  have hstart : Session.parse_date parseIso (dst.map isoformat) = dst := by
    cases dst with
    | none => rfl
    | some d =>
        obtain ⟨hne, hinv⟩ := h1 d rfl
        simp only [Option.map_some', Session.parse_date]
        rw [if_neg hne, hinv]
  have hend : Session.parse_date parseIso (den.map isoformat) = den := by
    cases den with
    | none => rfl
    | some d =>
        obtain ⟨hne, hinv⟩ := h2 d rfl
        simp only [Option.map_some', Session.parse_date]
        rw [if_neg hne, hinv]
  simp only [Session.to_dict, Session.from_api_data, Option.getD_some]
  rw [hstart, hend]

/-- C8: for each entity kind, building with `from_api_data`, serializing
with `to_dict` and rebuilding with `from_api_data` yields an entity equal
field-for-field to the first (for timestamps, provided the serializer is
inverted by the parser on the entity's instants — true of
`datetime.isoformat`/`fromisoformat`). -/
theorem C8_round_trip (parseIso : String → Option Int) (isoformat : Int → String)
    (rp : RawPosition) (p : Position)
    (_hp : Position.from_api_data parseIso rp = Except.ok p)
    (hpd : ∀ d : Int, p.date = some d → parseIso (stripTz (isoformat d)) = some d)
    (rd : RawDriver) (rs : RawSession)
    (hs1 : ∀ d : Int, (Session.from_api_data parseIso rs).date_start = some d →
      isoformat d ≠ "" ∧ parseIso (replaceZ (isoformat d)) = some d)
    (hs2 : ∀ d : Int, (Session.from_api_data parseIso rs).date_end = some d →
      isoformat d ≠ "" ∧ parseIso (replaceZ (isoformat d)) = some d) :
    Position.from_api_data parseIso (Position.to_dict isoformat p) = Except.ok p ∧
    Driver.from_api_data (Driver.to_dict (Driver.from_api_data rd)) =
      Driver.from_api_data rd ∧
    Session.from_api_data parseIso
        (Session.to_dict isoformat (Session.from_api_data parseIso rs)) =
      Session.from_api_data parseIso rs :=
  ⟨position_to_dict_round parseIso isoformat p hpd, rfl,
    session_to_dict_round parseIso isoformat (Session.from_api_data parseIso rs) hs1 hs2⟩

/-- C8 witness: the concrete round trips through the theorem — a position
observed at instant 5, driver record 1, and a session starting at 7. -/
theorem C8_round_trip_witness :
    Position.from_api_data parseIntFix
        (Position.to_dict formatIntFix ⟨some 1, some 1, some 5, some 1111, some 9, none⟩) =
      Except.ok ⟨some 1, some 1, some 5, some 1111, some 9, none⟩ ∧
    Driver.from_api_data (Driver.to_dict (Driver.from_api_data rawD1)) =
      Driver.from_api_data rawD1 ∧
    Session.from_api_data parseIntFix
        (Session.to_dict formatIntFix (Session.from_api_data parseIntFix rawS2)) =
      Session.from_api_data parseIntFix rawS2 := by
  refine C8_round_trip parseIntFix formatIntFix (mkRawPos (some 1) (some 1) (some "5") none)
    ⟨some 1, some 1, some 5, some 1111, some 9, none⟩ rfl ?_ rawD1 rawS2 ?_ ?_
  · intro d h
    have h5 : (5 : Int) = d := Option.some.inj h
    exact h5 ▸ (by decide)
  · intro d h
    have h7 : (7 : Int) = d := Option.some.inj h
    exact h7 ▸ ⟨by decide, by decide⟩
  · intro d h
    exact Option.noConfusion h

/-! ## List and dictionary lemmas for the consolidation proofs -/

/-- Membership through stable insertion. -/
theorem mem_insertByLt {α : Type} (lt : α → α → Bool) (x a : α) :
    ∀ l : List α, a ∈ insertByLt lt x l ↔ a = x ∨ a ∈ l := by
  intro l
  induction l with
  | nil => simp [insertByLt]
  | cons b t ih =>
      simp only [insertByLt]
      split
      · simp [List.mem_cons]
      · simp only [List.mem_cons, ih]
        tauto

/-- Membership is invariant under the sort. -/
theorem mem_sortByLt {α : Type} (lt : α → α → Bool) (a : α) :
    ∀ l : List α, a ∈ sortByLt lt l ↔ a ∈ l := by
  intro l
  induction l with
  | nil => simp [sortByLt]
  | cons b t ih =>
      simp only [sortByLt, mem_insertByLt, ih, List.mem_cons]

/-- Sorting a non-empty list is non-empty. -/
theorem sortByLt_ne_nil {α : Type} (lt : α → α → Bool) (b : α) (t : List α) :
    sortByLt lt (b :: t) ≠ [] := by
  intro h
  have : b ∈ sortByLt lt (b :: t) := (mem_sortByLt lt b (b :: t)).2 (List.mem_cons_self b t)
  rw [h] at this
  exact List.not_mem_nil b this

/-- A successful lookup returns a stored pair. -/
theorem lookupAL_mem {κ α : Type} [DecidableEq κ] (v : α) :
    ∀ (l : List (κ × α)) (k : κ), lookupAL l k = some v → (k, v) ∈ l := by
  intro l
  induction l with
  | nil => intro k h; simp [lookupAL] at h
  | cons kv t ih =>
      intro k h
      obtain ⟨k0, v0⟩ := kv
      simp only [lookupAL] at h
      by_cases hk : k0 = k
      · rw [if_pos hk] at h
        obtain rfl := Option.some.inj h
        exact hk ▸ List.mem_cons_self _ _
      · rw [if_neg hk] at h
        exact List.mem_cons_of_mem _ (ih k h)

/-- Looking up in the empty dict fails. -/
theorem lookupAL_nil {κ α : Type} [DecidableEq κ] (k : κ) :
    lookupAL ([] : List (κ × α)) k = none := rfl

/-- Pairs present after an overwrite-insert were present before or are
the inserted pair. -/
theorem mem_insertAL {κ α : Type} [DecidableEq κ] (k0 : κ) (v0 : α) (k : κ) (v : α) :
    ∀ l : List (κ × α), (k, v) ∈ insertAL l k0 v0 → (k, v) ∈ l ∨ (k = k0 ∧ v = v0) := by
  intro l
  induction l with
  | nil =>
      intro h
      simp only [insertAL, List.mem_singleton] at h
      right
      exact Prod.mk.inj h
  | cons kv t ih =>
      obtain ⟨k1, v1⟩ := kv
      intro h
      simp only [insertAL] at h
      by_cases hk : k1 = k0
      · rw [if_pos hk] at h
        rcases List.mem_cons.1 h with h | h
        · right; exact Prod.mk.inj h
        · left; exact List.mem_cons_of_mem _ h
      · rw [if_neg hk] at h
        rcases List.mem_cons.1 h with h | h
        · left; exact h ▸ List.mem_cons_self _ _
        · rcases ih h with h | h
          · left; exact List.mem_cons_of_mem _ h
          · right; exact h

/-- Invariant of the driver-dict fold: every stored value's
`driver_number` equals its key. -/
theorem dict_fold_inv (rows : List RawDriver) :
    ∀ (acc : List (Option Int × Driver)),
    (∀ k v, (k, v) ∈ acc → v.driver_number = k) →
    ∀ k v, (k, v) ∈ rows.foldl
      (fun acc row => insertAL acc (Driver.from_api_data row).driver_number
        (Driver.from_api_data row)) acc → v.driver_number = k := by
  induction rows with
  | nil => intro acc hacc k v h; exact hacc k v h
  | cons r t ih =>
      intro acc hacc k v h
      refine ih _ ?_ k v h
      intro k1 v1 h1
      rcases mem_insertAL _ _ _ _ acc h1 with h1 | ⟨rfl, rfl⟩
      · exact hacc k1 v1 h1
      · rfl

/-- Every value stored in `driversDictOf` carries its key as its
`driver_number`. -/
theorem driversDictOf_inv (ds : List RawDriver) :
    ∀ k v, (k, v) ∈ driversDictOf ds → v.driver_number = k := by
  intro k v h
  refine dict_fold_inv _ [] ?_ k v h
  intro k1 v1 h1
  simp at h1

/-- Membership in the consolidation output. -/
theorem mem_consolidate (isoformat : Int → String) (ses : Session)
    (dict : List (Option Int × Driver)) (rows : List Position) (r : ConsRow) :
    r ∈ consolidate isoformat ses dict rows ↔
      ∃ p ∈ rows, ∃ dr, lookupAL dict p.driver_number = some dr ∧
        r = buildRow isoformat ses dr p := by
  simp only [consolidate, List.mem_filterMap, Option.map_eq_some']
  constructor
  · rintro ⟨p, hp, dr, hdr, hr⟩
    exact ⟨p, hp, dr, hdr, hr.symm⟩
  · rintro ⟨p, hp, dr, hdr, hr⟩
    exact ⟨p, hp, dr, hdr, hr.symm⟩

/-- Sorting a non-empty list never empties it. -/
theorem sortByLt_ne_nil_of_ne_nil {α : Type} (lt : α → α → Bool) (l : List α)
    (h : l ≠ []) : sortByLt lt l ≠ [] := by
  cases l with
  | nil => exact absurd rfl h
  | cons b t => exact sortByLt_ne_nil lt b t

/-- What `collect_race_data`'s post-processing guarantees when every
position row carries a timestamp and at least one row survives the join:
it succeeds, keeps the set non-empty, and every output row descends from
a consolidated row with its identity fields intact; its lap number is the
estimation formula when no consolidated row carried a lap, and the
consolidated row's own lap otherwise. -/
theorem processRows_spec (isoformat : Int → String) (ses : Session)
    (dict : List (Option Int × Driver)) (rows : List Position)
    (hts : ∀ p ∈ rows, p.date.isSome = true)
    (hdfne : consolidate isoformat ses dict rows ≠ []) :
    ∃ out, processRows isoformat ses dict rows = Except.ok out ∧ out ≠ [] ∧
      ∀ r ∈ out, ∃ r0 ∈ consolidate isoformat ses dict rows,
        r.session_key = r0.session_key ∧ r.driver_number = r0.driver_number ∧
        (((consolidate isoformat ses dict rows).all fun x => x.lap_number = none) = true →
          r.lap_number = some ((r.seconds_from_start.getD 0).fdiv 90 + 1) ∧
          r.seconds_from_start.isSome = true) ∧
        (((consolidate isoformat ses dict rows).all fun x => x.lap_number = none) = false →
          r.lap_number = r0.lap_number) := by
  have hdts : ∀ r ∈ consolidate isoformat ses dict rows, r.timestamp.isSome = true := by
    intro r hr
    obtain ⟨p, hp, dr, hdr, rfl⟩ := (mem_consolidate isoformat ses dict rows r).1 hr
    exact hts p hp
  have hie : (consolidate isoformat ses dict rows).isEmpty = false := by
    cases hdd : consolidate isoformat ses dict rows
    · exact absurd hdd hdfne
    · rfl
  have htsall : ((consolidate isoformat ses dict rows).all fun r => r.timestamp = none) =
      false := by
    cases hall : (consolidate isoformat ses dict rows).all fun r => r.timestamp = none
    · rfl
    · exfalso
      cases hdd : consolidate isoformat ses dict rows with
      | nil => exact hdfne hdd
      | cons r t =>
          rw [hdd] at hall
          have h1 := List.all_eq_true.1 hall r (List.mem_cons_self r t)
          have h2 := hdts r (hdd ▸ List.mem_cons_self r t)
          rw [of_decide_eq_true h1] at h2
          simp at h2
  have hlapmap : ((addSecondsFromStart (consolidate isoformat ses dict rows)).all
      fun x => x.lap_number = none) =
      ((consolidate isoformat ses dict rows).all fun x => x.lap_number = none) := by
    unfold addSecondsFromStart
    rw [List.all_map]
    rfl
  have hsfs_all : ((addSecondsFromStart (consolidate isoformat ses dict rows)).all
      fun r => r.seconds_from_start.isSome) = true := by
    rw [List.all_eq_true]
    intro r hr
    obtain ⟨r0, hr0, rfl⟩ := List.mem_map.1 hr
    have := hdts r0 hr0
    obtain ⟨t, ht⟩ := Option.isSome_iff_exists.1 this
    simp [ht]
  unfold processRows
  dsimp only
  simp only [hie, Bool.false_eq_true, if_false, htsall, hlapmap]
  cases hlap : (consolidate isoformat ses dict rows).all fun x => x.lap_number = none
  · simp only [Bool.false_eq_true, if_false]
    refine ⟨sortByLt consRowLt (addSecondsFromStart (consolidate isoformat ses dict rows)),
      rfl, ?_, ?_⟩
    · refine sortByLt_ne_nil_of_ne_nil _ _ ?_
      unfold addSecondsFromStart
      intro hmap
      exact hdfne (List.map_eq_nil_iff.1 hmap)
    · intro r hr
      have hr1 := (mem_sortByLt _ r _).1 hr
      obtain ⟨r0, hr0, rfl⟩ := List.mem_map.1 hr1
      refine ⟨r0, hr0, rfl, rfl, ?_, ?_⟩
      · intro htrue
        simp at htrue
      · intro _
        rfl
  · simp only [if_true]
    unfold _estimate_lap_numbers
    simp only [hsfs_all, if_true]
    refine ⟨sortByLt consRowLt ((addSecondsFromStart
      (consolidate isoformat ses dict rows)).map fun r =>
        { r with lap_number := some ((r.seconds_from_start.getD 0).fdiv 90 + 1) }),
      rfl, ?_, ?_⟩
    · refine sortByLt_ne_nil_of_ne_nil _ _ ?_
      intro hmap
      have := List.map_eq_nil_iff.1 hmap
      unfold addSecondsFromStart at this
      exact hdfne (List.map_eq_nil_iff.1 this)
    · intro r hr
      have hr1 := (mem_sortByLt _ r _).1 hr
      obtain ⟨r1, hr1m, rfl⟩ := List.mem_map.1 hr1
      obtain ⟨r0, hr0, rfl⟩ := List.mem_map.1 hr1m
      refine ⟨r0, hr0, rfl, rfl, ?_, ?_⟩
      · intro _
        refine ⟨rfl, ?_⟩
        have := hdts r0 hr0
        obtain ⟨t, ht⟩ := Option.isSome_iff_exists.1 this
        simp [addSecondsFromStart, ht]
      · intro hfalse
        simp at hfalse

/-- C1 counterexample: a session that exists, with one driver (car 1) and
one position observation (for car 44, an orphan), yields an EMPTY
consolidated set — refuting "at least one driver and at least one position
observation implies a non-empty result". -/
theorem C1_counterexample :
    (F1DataCollector.collect_race_data apiC1 parseIntFix formatIntFix initState 9).1 =
      Except.ok [] ∧
    (SessionCollector.get_session_info apiC1 parseIntFix formatIntFix
      Collector.init 9).1.isSome = true ∧
    (DriverCollector.get_drivers_dict apiC1 Collector.init 9).1 ≠ [] ∧
    (PositionCollector.collect apiC1 parseIntFix formatIntFix Collector.init 9 none).1 =
      Except.ok [⟨some 44, some 1, some 0, some 1111, some 9, none⟩] := by
  refine ⟨rfl, rfl, ?_, rfl⟩
  decide

/-- C1 amended: for a session that exists (and whose record carries the
requested key), with fetched drivers and position observations that all
normalize, all carry timestamps, and at least one of which matches a
driver of the session, `collect_race_data` returns a non-empty
consolidated set in which every row's `driver_number` is a key of the
session's driver mapping and every row's `session_key` equals the
requested identifier; observations whose `driver_number` has no matching
driver contribute zero rows. -/
theorem C1_amended_consolidation (api : Api) (parseIso : String → Option Int)
    (isoformat : Int → String) (st : F1State) (sk : Int)
    (s0 : RawSession) (srest : List RawSession) (ds : List RawDriver)
    (ps : List RawPosition) (p0 : RawPosition) (prest : List RawPosition)
    (qs : List Position)
    (hcs : st.sessions.cache = []) (hcd : st.drivers.cache = [])
    (hcp : st.positions.cache = [])
    (hs : api.sessions st.sessions.calls [("session_key", PVal.int sk)] = some (s0 :: srest))
    (hkey : s0.session_key = some sk)
    (hd : api.drivers st.drivers.calls (collectParams sk none) = some ds)
    (hp : api.positions st.positions.calls (collectParams sk none) = some ps)
    (hps : ps = p0 :: prest)
    (hparse : mapOrFail (Position.from_api_data parseIso) ps = Except.ok qs)
    (hdates : ∀ q ∈ qs, ((q.date.map isoformat).bind parseIso).isSome = true)
    (hmatch : ∃ q ∈ qs, (lookupAL (driversDictOf ds) q.driver_number).isSome = true) :
    ∃ out, (F1DataCollector.collect_race_data api parseIso isoformat st sk).1 =
        Except.ok out ∧
      out ≠ [] ∧
      (∀ r ∈ out, r.session_key = some sk) ∧
      (∀ r ∈ out, r.driver_number ∈ (driversDictOf ds).map Prod.fst) ∧
      (∀ n, n ∉ (driversDictOf ds).map Prod.fst → ∀ r ∈ out, r.driver_number ≠ n) := by
  obtain ⟨q, hq, hlq⟩ := hmatch
  obtain ⟨dr, hdr⟩ := Option.isSome_iff_exists.1 hlq
  have hdictne : (driversDictOf ds).isEmpty = false := by
    cases hdd : driversDictOf ds
    · rw [hdd] at hdr
      exact Option.noConfusion hdr
    · rfl
  have hqs_ne : qs ≠ [] := List.ne_nil_of_mem hq
  have hrows_ne : sortByLt posLt (qs.map (toDatetimeRow parseIso isoformat)) ≠ [] := by
    refine sortByLt_ne_nil_of_ne_nil _ _ ?_
    intro hmap
    exact hqs_ne (List.map_eq_nil_iff.1 hmap)
  have hrows_ie : (sortByLt posLt (qs.map (toDatetimeRow parseIso isoformat))).isEmpty =
      false := by
    cases hdd : sortByLt posLt (qs.map (toDatetimeRow parseIso isoformat))
    · exact absurd hdd hrows_ne
    · rfl
  unfold F1DataCollector.collect_race_data
  rw [session_info_of_fetch_cons api parseIso isoformat st.sessions sk s0 srest hcs hs]
  dsimp only
  rw [drivers_dict_of_fetch api st.drivers sk ds hcd hd]
  dsimp only
  rw [hdictne]
  rw [positions_collect_of_fetch api parseIso isoformat st.positions sk none ps qs
    p0 prest hcp hps hp hparse]
  dsimp only
  rw [hrows_ie]
  simp only [Bool.false_eq_true, if_false]
  have hts : ∀ p ∈ sortByLt posLt (qs.map (toDatetimeRow parseIso isoformat)),
      p.date.isSome = true := by
    intro p hpm
    obtain ⟨q1, hq1, rfl⟩ := List.mem_map.1 ((mem_sortByLt _ p _).1 hpm)
    exact hdates q1 hq1
  have hdfne : consolidate isoformat
      (Session.from_api_data parseIso
        (Session.to_dict isoformat (Session.from_api_data parseIso s0)))
      (driversDictOf ds)
      (sortByLt posLt (qs.map (toDatetimeRow parseIso isoformat))) ≠ [] := by
    have hmem0 : buildRow isoformat
        (Session.from_api_data parseIso
          (Session.to_dict isoformat (Session.from_api_data parseIso s0)))
        dr (toDatetimeRow parseIso isoformat q) ∈ consolidate isoformat
        (Session.from_api_data parseIso
          (Session.to_dict isoformat (Session.from_api_data parseIso s0)))
        (driversDictOf ds)
        (sortByLt posLt (qs.map (toDatetimeRow parseIso isoformat))) :=
      (mem_consolidate _ _ _ _ _).2 ⟨toDatetimeRow parseIso isoformat q,
        (mem_sortByLt _ _ _).2 (List.mem_map_of_mem _ hq), dr, hdr, rfl⟩
    exact List.ne_nil_of_mem hmem0
  obtain ⟨out, hout, houtne, hmem⟩ :=
    processRows_spec isoformat
      (Session.from_api_data parseIso
        (Session.to_dict isoformat (Session.from_api_data parseIso s0)))
      (driversDictOf ds)
      (sortByLt posLt (qs.map (toDatetimeRow parseIso isoformat))) hts hdfne
  have hdrv : ∀ r ∈ out, r.driver_number ∈ (driversDictOf ds).map Prod.fst := by
    intro r hr
    obtain ⟨r0, hr0, hsk0, hdn0, -, -⟩ := hmem r hr
    obtain ⟨p, hpm, dr1, hdr1, rfl⟩ := (mem_consolidate _ _ _ _ _).1 hr0
    have hmemd := lookupAL_mem dr1 (driversDictOf ds) p.driver_number hdr1
    have hkeyeq := driversDictOf_inv ds p.driver_number dr1 hmemd
    rw [hdn0]
    have hbr : (buildRow isoformat
        (Session.from_api_data parseIso
          (Session.to_dict isoformat (Session.from_api_data parseIso s0)))
        dr1 p).driver_number = dr1.driver_number := rfl
    rw [hbr, hkeyeq]
    exact List.mem_map_of_mem Prod.fst hmemd
  refine ⟨out, hout, houtne, ?_, hdrv, ?_⟩
  · intro r hr
    obtain ⟨r0, hr0, hsk0, -, -, -⟩ := hmem r hr
    obtain ⟨p, hpm, dr1, hdr1, rfl⟩ := (mem_consolidate _ _ _ _ _).1 hr0
    rw [hsk0]
    have : (buildRow isoformat
        (Session.from_api_data parseIso
          (Session.to_dict isoformat (Session.from_api_data parseIso s0)))
        dr1 p).session_key = s0.session_key := rfl
    rw [this, hkey]
  · intro n hn r hr heq
    exact hn (heq ▸ hdrv r hr)

/-- C1 amended, witness: the concrete four-observation session through
the theorem. -/
theorem C1_amended_consolidation_witness :
    ∃ out, (F1DataCollector.collect_race_data apiC5 parseIntFix formatIntFix
        initState 9).1 = Except.ok out ∧
      out ≠ [] ∧
      (∀ r ∈ out, r.session_key = some 9) ∧
      (∀ r ∈ out, r.driver_number ∈ (driversDictOf [rawD1, rawD2]).map Prod.fst) ∧
      (∀ n, n ∉ (driversDictOf [rawD1, rawD2]).map Prod.fst →
        ∀ r ∈ out, r.driver_number ≠ n) :=
  C1_amended_consolidation apiC5 parseIntFix formatIntFix initState 9 rawS [] [rawD1, rawD2]
    [mkRawPos (some 1) (some 1) (some "0") none, mkRawPos (some 1) (some 1) (some "10") none,
     mkRawPos (some 2) (some 1) (some "20") none, mkRawPos (some 2) (some 1) (some "30") none]
    (mkRawPos (some 1) (some 1) (some "0") none)
    [mkRawPos (some 1) (some 1) (some "10") none,
     mkRawPos (some 2) (some 1) (some "20") none, mkRawPos (some 2) (some 1) (some "30") none]
    [⟨some 1, some 1, some 0, some 1111, some 9, none⟩,
     ⟨some 1, some 1, some 10, some 1111, some 9, none⟩,
     ⟨some 2, some 1, some 20, some 1111, some 9, none⟩,
     ⟨some 2, some 1, some 30, some 1111, some 9, none⟩]
    rfl rfl rfl rfl rfl rfl rfl rfl rfl (by decide) (by decide)

/-- A successful comprehension over a non-empty list is non-empty. -/
theorem mapOrFail_ne_nil {α β : Type} (f : α → Except String β) (a : α)
    (t : List α) (qs : List β) (h : mapOrFail f (a :: t) = Except.ok qs) :
    qs ≠ [] := by
  unfold mapOrFail at h
  cases hfa : f a
  case error e =>
      simp only [hfa] at h
      exact Except.noConfusion h
  case ok b =>
      simp only [hfa] at h
      cases hmt : mapOrFail f t
      case error e =>
          simp only [hmt] at h
          exact Except.noConfusion h
      case ok bs =>
          simp only [hmt, Except.ok.injEq] at h
          rw [← h]
          exact List.cons_ne_nil b bs

/-- C2 counterexample: the only source row with a genuine lap number (lap
5 on orphan car 44) is dropped by the join, so the all-or-nothing check
sees only missing laps and substitutes an estimated lap (1) into the
surviving row — even though a source row carried a genuine lap number. -/
theorem C2_counterexample :
    (F1DataCollector.collect_race_data apiC2 parseIntFix formatIntFix initState 9).1 =
      Except.ok [⟨some 9, "Race", "Race", "Brazil", "Interlagos", some 2023, none,
        some 1, "Max V", "VER", "RB", "3671C6", "NED", none, some 1, some 0,
        some 1, some 1111, some 0⟩] ∧
    (mkRawPos (some 44) (some 2) (some "0") (some 5)).lap_number = some 5 :=
  ⟨rfl, rfl⟩

/-- C2 amended: the all-or-nothing decision is taken over the rows that
survive the driver join. If no surviving observation carries a lap
number, every output row's lap equals
`floor(seconds_from_start / 90) + 1` (90 s being the default average lap
the private estimator is invoked with); if at least one surviving
observation has a genuine lap number, every output row keeps the lap
number of its source observation. -/
theorem C2_amended_lap_estimation (api : Api) (parseIso : String → Option Int)
    (isoformat : Int → String) (st : F1State) (sk : Int)
    (s0 : RawSession) (srest : List RawSession) (ds : List RawDriver)
    (ps : List RawPosition) (p0 : RawPosition) (prest : List RawPosition)
    (qs : List Position)
    (hcs : st.sessions.cache = []) (hcd : st.drivers.cache = [])
    (hcp : st.positions.cache = [])
    (hs : api.sessions st.sessions.calls [("session_key", PVal.int sk)] = some (s0 :: srest))
    (hd : api.drivers st.drivers.calls (collectParams sk none) = some ds)
    (hp : api.positions st.positions.calls (collectParams sk none) = some ps)
    (hps : ps = p0 :: prest)
    (hparse : mapOrFail (Position.from_api_data parseIso) ps = Except.ok qs)
    (hdates : ∀ q ∈ qs, ((q.date.map isoformat).bind parseIso).isSome = true) :
    ∃ out, (F1DataCollector.collect_race_data api parseIso isoformat st sk).1 =
        Except.ok out ∧
      ((∀ q ∈ qs, (lookupAL (driversDictOf ds) q.driver_number).isSome = true →
          q.lap_number = none) →
        ∀ r ∈ out, r.lap_number = some ((r.seconds_from_start.getD 0).fdiv 90 + 1) ∧
          r.seconds_from_start.isSome = true) ∧
      ((∃ q ∈ qs, (lookupAL (driversDictOf ds) q.driver_number).isSome = true ∧
          q.lap_number.isSome = true) →
        ∀ r ∈ out, ∃ q ∈ qs,
          (lookupAL (driversDictOf ds) q.driver_number).isSome = true ∧
          r.lap_number = q.lap_number) := by
  have hqs_ne : qs ≠ [] := mapOrFail_ne_nil _ p0 prest qs (hps ▸ hparse)
  have hrows_ne : sortByLt posLt (qs.map (toDatetimeRow parseIso isoformat)) ≠ [] := by
    refine sortByLt_ne_nil_of_ne_nil _ _ ?_
    intro hmap
    exact hqs_ne (List.map_eq_nil_iff.1 hmap)
  have hrows_ie : (sortByLt posLt (qs.map (toDatetimeRow parseIso isoformat))).isEmpty =
      false := by
    cases hdd : sortByLt posLt (qs.map (toDatetimeRow parseIso isoformat))
    · exact absurd hdd hrows_ne
    · rfl
  unfold F1DataCollector.collect_race_data
  rw [session_info_of_fetch_cons api parseIso isoformat st.sessions sk s0 srest hcs hs]
  dsimp only
  rw [drivers_dict_of_fetch api st.drivers sk ds hcd hd]
  dsimp only
  cases hdict : (driversDictOf ds).isEmpty
  · rw [positions_collect_of_fetch api parseIso isoformat st.positions sk none ps qs
      p0 prest hcp hps hp hparse]
    dsimp only
    rw [hrows_ie]
    simp only [Bool.false_eq_true, if_false]
    have hts : ∀ p ∈ sortByLt posLt (qs.map (toDatetimeRow parseIso isoformat)),
        p.date.isSome = true := by
      intro p hpm
      obtain ⟨q1, hq1, rfl⟩ := List.mem_map.1 ((mem_sortByLt _ p _).1 hpm)
      exact hdates q1 hq1
    by_cases hdfe : consolidate isoformat
        (Session.from_api_data parseIso
          (Session.to_dict isoformat (Session.from_api_data parseIso s0)))
        (driversDictOf ds)
        (sortByLt posLt (qs.map (toDatetimeRow parseIso isoformat))) = []
    · refine ⟨[], ?_, ?_, ?_⟩
      · unfold processRows
        rw [hdfe]
        rfl
      · intro _ r hr
        simp at hr
      · intro _ r hr
        simp at hr
    · obtain ⟨out, hout, houtne, hmem⟩ :=
        processRows_spec isoformat
          (Session.from_api_data parseIso
            (Session.to_dict isoformat (Session.from_api_data parseIso s0)))
          (driversDictOf ds)
          (sortByLt posLt (qs.map (toDatetimeRow parseIso isoformat))) hts hdfe
      refine ⟨out, hout, ?_, ?_⟩
      · intro hA r hr
        have hall : ((consolidate isoformat
            (Session.from_api_data parseIso
              (Session.to_dict isoformat (Session.from_api_data parseIso s0)))
            (driversDictOf ds)
            (sortByLt posLt (qs.map (toDatetimeRow parseIso isoformat)))).all
            fun x => x.lap_number = none) = true := by
          rw [List.all_eq_true]
          intro r0 hr0
          obtain ⟨p, hpm, dr1, hdr1, rfl⟩ := (mem_consolidate _ _ _ _ _).1 hr0
          obtain ⟨q1, hq1, rfl⟩ := List.mem_map.1 ((mem_sortByLt _ p _).1 hpm)
          have hlap1 : q1.lap_number = none :=
            hA q1 hq1 (Option.isSome_iff_exists.2 ⟨dr1, hdr1⟩)
          exact decide_eq_true hlap1
        obtain ⟨r0, hr0, -, -, himp, -⟩ := hmem r hr
        exact himp hall
      · intro hB r hr
        obtain ⟨qB, hqB, hlkB, hlapB⟩ := hB
        have hall : ((consolidate isoformat
            (Session.from_api_data parseIso
              (Session.to_dict isoformat (Session.from_api_data parseIso s0)))
            (driversDictOf ds)
            (sortByLt posLt (qs.map (toDatetimeRow parseIso isoformat)))).all
            fun x => x.lap_number = none) = false := by
          obtain ⟨drB, hdrB⟩ := Option.isSome_iff_exists.1 hlkB
          have hmemB : buildRow isoformat
              (Session.from_api_data parseIso
                (Session.to_dict isoformat (Session.from_api_data parseIso s0)))
              drB (toDatetimeRow parseIso isoformat qB) ∈ consolidate isoformat
              (Session.from_api_data parseIso
                (Session.to_dict isoformat (Session.from_api_data parseIso s0)))
              (driversDictOf ds)
              (sortByLt posLt (qs.map (toDatetimeRow parseIso isoformat))) :=
            (mem_consolidate _ _ _ _ _).2 ⟨toDatetimeRow parseIso isoformat qB,
              (mem_sortByLt _ _ _).2 (List.mem_map_of_mem _ hqB), drB, hdrB, rfl⟩
          cases hall0 : ((consolidate isoformat
              (Session.from_api_data parseIso
                (Session.to_dict isoformat (Session.from_api_data parseIso s0)))
              (driversDictOf ds)
              (sortByLt posLt (qs.map (toDatetimeRow parseIso isoformat)))).all
              fun x => x.lap_number = none)
          · rfl
          · exfalso
            have := List.all_eq_true.1 hall0 _ hmemB
            have hlapnone : qB.lap_number = none := of_decide_eq_true this
            rw [hlapnone] at hlapB
            simp at hlapB
        obtain ⟨r0, hr0, -, -, -, himp⟩ := hmem r hr
        have hlap0 := himp hall
        obtain ⟨p, hpm, dr1, hdr1, rfl⟩ := (mem_consolidate _ _ _ _ _).1 hr0
        obtain ⟨q1, hq1, rfl⟩ := List.mem_map.1 ((mem_sortByLt _ p _).1 hpm)
        exact ⟨q1, hq1, Option.isSome_iff_exists.2 ⟨dr1, hdr1⟩, hlap0⟩
  · refine ⟨[], rfl, ?_, ?_⟩
    · intro _ r hr
      simp at hr
    · intro _ r hr
      simp at hr

/-- C2 amended, witness: the concrete four-observation session (no laps
anywhere) through the theorem. -/
theorem C2_amended_lap_estimation_witness :
    ∃ out, (F1DataCollector.collect_race_data apiC5 parseIntFix formatIntFix
        initState 9).1 = Except.ok out ∧
      ((∀ q ∈ [(⟨some 1, some 1, some 0, some 1111, some 9, none⟩ : Position),
          ⟨some 1, some 1, some 10, some 1111, some 9, none⟩,
          ⟨some 2, some 1, some 20, some 1111, some 9, none⟩,
          ⟨some 2, some 1, some 30, some 1111, some 9, none⟩],
          (lookupAL (driversDictOf [rawD1, rawD2]) q.driver_number).isSome = true →
          q.lap_number = none) →
        ∀ r ∈ out, r.lap_number = some ((r.seconds_from_start.getD 0).fdiv 90 + 1) ∧
          r.seconds_from_start.isSome = true) ∧
      ((∃ q ∈ [(⟨some 1, some 1, some 0, some 1111, some 9, none⟩ : Position),
          ⟨some 1, some 1, some 10, some 1111, some 9, none⟩,
          ⟨some 2, some 1, some 20, some 1111, some 9, none⟩,
          ⟨some 2, some 1, some 30, some 1111, some 9, none⟩],
          (lookupAL (driversDictOf [rawD1, rawD2]) q.driver_number).isSome = true ∧
          q.lap_number.isSome = true) →
        ∀ r ∈ out, ∃ q ∈ [(⟨some 1, some 1, some 0, some 1111, some 9, none⟩ : Position),
          ⟨some 1, some 1, some 10, some 1111, some 9, none⟩,
          ⟨some 2, some 1, some 20, some 1111, some 9, none⟩,
          ⟨some 2, some 1, some 30, some 1111, some 9, none⟩],
          (lookupAL (driversDictOf [rawD1, rawD2]) q.driver_number).isSome = true ∧
          r.lap_number = q.lap_number) :=
  C2_amended_lap_estimation apiC5 parseIntFix formatIntFix initState 9 rawS [] [rawD1, rawD2]
    [mkRawPos (some 1) (some 1) (some "0") none, mkRawPos (some 1) (some 1) (some "10") none,
     mkRawPos (some 2) (some 1) (some "20") none, mkRawPos (some 2) (some 1) (some "30") none]
    (mkRawPos (some 1) (some 1) (some "0") none)
    [mkRawPos (some 1) (some 1) (some "10") none,
     mkRawPos (some 2) (some 1) (some "20") none, mkRawPos (some 2) (some 1) (some "30") none]
    [⟨some 1, some 1, some 0, some 1111, some 9, none⟩,
     ⟨some 1, some 1, some 10, some 1111, some 9, none⟩,
     ⟨some 2, some 1, some 20, some 1111, some 9, none⟩,
     ⟨some 2, some 1, some 30, some 1111, some 9, none⟩]
    rfl rfl rfl rfl rfl rfl rfl rfl (by decide)

end F1
